import Mathlib

/-!
Verification of the smartnotes-ai client contract.

Strings are modelled as lists of Unicode code points (`List Nat`); the
case mapping used by the client (`String.prototype.toLowerCase` on the
ASCII range) is modelled by the mapping that sends `A`-`Z` to `a`-`z`
and fixes every other code point.
-/

namespace SmartNotes

/-- Code points of a string literal. -/
def str (s : String) : List Nat := s.data.map Char.toNat

/-- ASCII lower-casing of one code point, as used by `toLowerCase`. -/
def lowChar (c : Nat) : Nat := if 65 ≤ c ∧ c ≤ 90 then c + 32 else c

/-- Lower-casing of a whole string. -/
def lowerStr (s : List Nat) : List Nat := s.map lowChar

/-- A note record, with the fields the client reads and writes
(`interface Note` in the list and detail pages together with the
`user_id` column of the `notes` table).  `summary` and `keywords` are
nullable columns, modelled with `Option`. -/
structure Note where
  id : Nat
  user_id : Nat
  title : List Nat
  summary : Option (List Nat)
  original_content : List Nat
  keywords : Option (List (List Nat))
deriving DecidableEq

/-- `hay.includes(needle)` on JavaScript strings: substring test. -/
def includesSub (hay needle : List Nat) : Bool := decide (needle <:+: hay)

/-- The match predicate of the search filter in `Notes.tsx`:
`note.title.toLowerCase().includes(q.toLowerCase()) ||
 note.summary?.toLowerCase().includes(q.toLowerCase()) ||
 note.keywords?.some(k => k.toLowerCase().includes(q.toLowerCase()))`.
A null `summary` or `keywords` makes its disjunct falsy. -/
def noteMatches (q : List Nat) (n : Note) : Bool :=
  includesSub (lowerStr n.title) (lowerStr q)
  || (match n.summary with
      | some s => includesSub (lowerStr s) (lowerStr q)
      | none => false)
  || (match n.keywords with
      | some ks => ks.any (fun k => includesSub (lowerStr k) (lowerStr q))
      | none => false)

/-- `filteredNotes` in `Notes.tsx`: `notes.filter(...)`. -/
def filteredNotes (notes : List Note) (q : List Nat) : List Note :=
  notes.filter (noteMatches q)

/-- The spec's wording of a match: the query is a case-insensitive
substring of the title, or of the summary when present, or of at least
one keyword. -/
def specMatches (q : List Nat) (n : Note) : Prop :=
  lowerStr q <:+: lowerStr n.title
  ∨ (∃ s, n.summary = some s ∧ lowerStr q <:+: lowerStr s)
  ∨ (∃ ks, n.keywords = some ks ∧ ∃ k ∈ ks, lowerStr q <:+: lowerStr k)

theorem lowChar_idem (c : Nat) : lowChar (lowChar c) = lowChar c := by
  unfold lowChar
  split
  · split <;> omega
  · simp [*]

theorem lowerStr_idem (s : List Nat) : lowerStr (lowerStr s) = lowerStr s := by
  unfold lowerStr
  rw [List.map_map]
  exact List.map_congr_left fun c _ => lowChar_idem c

theorem noteMatches_iff (q : List Nat) (n : Note) :
    noteMatches q n = true ↔ specMatches q n := by
  unfold noteMatches specMatches includesSub
  cases n.summary <;> cases n.keywords <;>
    simp [List.any_eq_true, or_assoc]

theorem noteMatches_nil (n : Note) : noteMatches [] n = true := by
  unfold noteMatches includesSub
  have h : lowerStr [] = [] := rfl
  rw [h]
  simp

/-- C1: the client-side search filter returns exactly the notes whose
title, summary (when present) or some keyword contains the query
case-insensitively; it is an order-preserving subset of its input, the
empty query keeps every note, and filtering is invariant under
lower-casing the query. -/
theorem search_filter_correct (L : List Note) (q : List Nat) :
    (∀ n, n ∈ filteredNotes L q ↔ n ∈ L ∧ specMatches q n)
    ∧ List.Sublist (filteredNotes L q) L
    ∧ filteredNotes L [] = L
    ∧ filteredNotes L q = filteredNotes L (lowerStr q) := by
  refine ⟨fun n => ?_, List.filter_sublist L, ?_, ?_⟩
  · rw [filteredNotes, List.mem_filter, noteMatches_iff]
  · rw [filteredNotes, List.filter_eq_self]
    exact fun n _ => noteMatches_nil n
  · unfold filteredNotes
    congr 1
    funext n
    unfold noteMatches
    rw [lowerStr_idem]

/-- Membership in the character class `[a-z0-9]` read case-insensitively,
as tested by the regular expression `/[^a-z0-9]/gi`. -/
def isAlnumCI (c : Nat) : Bool :=
  (97 ≤ c && c ≤ 122) || (65 ≤ c && c ≤ 90) || (48 ≤ c && c ≤ 57)

/-- `title.replace(/[^a-z0-9]/gi, '_')` in `handleExport`. -/
def replaceNonAlnum (s : List Nat) : List Nat :=
  s.map (fun c => if isAlnumCI c then c else 95)

/-- The filename stem computed by `handleExport`:
`note.title.replace(/[^a-z0-9]/gi, '_').toLowerCase()`. -/
def filenameStem (title : List Nat) : List Nat :=
  lowerStr (replaceNonAlnum title)

/-- The two export formats offered by the download menu. -/
inductive ExportFormat where
  | txt
  | md
deriving DecidableEq

/-- The extension appended to the stem. -/
def extStr : ExportFormat → List Nat
  | .txt => str "txt"
  | .md => str "md"

/-- The full export filename `` `${stem}.${format}` ``. -/
def exportFilename (title : List Nat) (f : ExportFormat) : List Nat :=
  filenameStem title ++ str "." ++ extStr f

/-- Membership in `[a-z0-9]` read literally (lower-case letters and
digits only). -/
def isLowerAlnum (c : Nat) : Bool :=
  (97 ≤ c && c ≤ 122) || (48 ≤ c && c ≤ 57)

/-- The spec's wording of the stem: lower-case the title first, then
replace every character outside `[a-z0-9]` with `_`. -/
def specStem (s : List Nat) : List Nat :=
  (lowerStr s).map (fun c => if isLowerAlnum c then c else 95)

/-- The spec's wording of the full filename. -/
def specFilename (title : List Nat) (f : ExportFormat) : List Nat :=
  specStem title ++ str "." ++ extStr f

theorem stem_char_eq (c : Nat) :
    lowChar (if isAlnumCI c then c else 95)
      = (if isLowerAlnum (lowChar c) then lowChar c else 95) := by
  unfold isAlnumCI isLowerAlnum lowChar
  simp only [Bool.or_eq_true, Bool.and_eq_true, decide_eq_true_eq]
  split_ifs <;> omega

/-- C2: the export filename equals the spec's lowercase-then-replace
derivation for every title and extension (replacing case-insensitively
first and lower-casing afterwards commutes), and the note titled
`"Q1 Report!!"` exports as `q1_report__.txt`. -/
theorem export_filename_correct :
    (∀ t f, exportFilename t f = specFilename t f)
    ∧ exportFilename (str "Q1 Report!!") ExportFormat.txt = str "q1_report__.txt" := by
  constructor
  · intro t f
    unfold exportFilename specFilename filenameStem specStem replaceNonAlnum lowerStr
    rw [List.map_map, List.map_map]
    exact congrArg (fun x => x ++ str "." ++ extStr f)
      (List.map_congr_left fun c _ => stem_char_eq c)
  · decide

/-- C5: the filename-stem derivation of `handleExport` is idempotent:
re-deriving an already-derived stem changes nothing. -/
theorem filename_stem_idempotent (s : List Nat) :
    filenameStem (filenameStem s) = filenameStem s := by
  unfold filenameStem replaceNonAlnum lowerStr
  simp only [List.map_map]
  refine List.map_congr_left fun c _ => ?_
  simp only [Function.comp]
  unfold isAlnumCI lowChar
  simp only [Bool.or_eq_true, Bool.and_eq_true, decide_eq_true_eq]
  split_ifs <;> omega

/-- `note.summary || 'No summary'`: a null summary and an empty-string
summary are both falsy in JavaScript and fall back to the literal. -/
def summaryOrDefault : Option (List Nat) → List Nat
  | none => str "No summary"
  | some s => if s = [] then str "No summary" else s

/-- `Array.prototype.join(sep)`. -/
def joinSep (sep : List Nat) : List (List Nat) → List Nat
  | [] => []
  | [k] => k
  | k :: ks => k ++ sep ++ joinSep sep ks

/-- The `Keywords:` block of the plain-text export, contributed by
`if (note.keywords && note.keywords.length > 0) content += ...`. -/
def kwSectionTxt : Option (List (List Nat)) → List Nat
  | some ks =>
      if 0 < ks.length then str "Keywords: " ++ joinSep (str ", ") ks ++ str "\n\n"
      else []
  | none => []

/-- The plain-text export built by `handleExport('txt')`. -/
def exportTxt (n : Note) : List Nat :=
  n.title ++ str "\n" ++ List.replicate n.title.length 61 ++ str "\n\nSummary:\n"
    ++ summaryOrDefault n.summary ++ str "\n\n"
    ++ kwSectionTxt n.keywords
    ++ str "Original Content:\n" ++ n.original_content

/-- The `## Keywords` block of the Markdown export. -/
def kwSectionMd : Option (List (List Nat)) → List Nat
  | some ks =>
      if 0 < ks.length then
        str "## Keywords\n\n" ++ joinSep (str "\n") (ks.map (fun k => str "- " ++ k))
          ++ str "\n\n"
      else []
  | none => []

/-- The Markdown export built by `handleExport('md')`. -/
def exportMd (n : Note) : List Nat :=
  str "# " ++ n.title ++ str "\n\n## Summary\n\n" ++ summaryOrDefault n.summary
    ++ str "\n\n"
    ++ kwSectionMd n.keywords
    ++ str "## Original Content\n\n" ++ n.original_content

theorem prefix_append_cons {α : Type} {c : α} {l a b : List α}
    (hc : c ∉ l) (h : l <+: a ++ c :: b) : l <+: a := by
  induction a generalizing l with
  | nil =>
      cases l with
      | nil => exact List.nil_prefix
      | cons x l' =>
          rw [List.nil_append, List.cons_prefix_cons] at h
          exact absurd (h.1 ▸ List.mem_cons_self x l') hc
  | cons y a' ih =>
      cases l with
      | nil => exact List.nil_prefix
      | cons x l' =>
          rw [List.cons_append, List.cons_prefix_cons] at h
          have hx : c ∉ l' := fun hm => hc (List.mem_cons_of_mem x hm)
          exact List.cons_prefix_cons.mpr ⟨h.1, ih hx h.2⟩

theorem infix_ext_left {α : Type} (a : List α) {l m : List α}
    (h : l <:+: m) : l <:+: a ++ m := by
  obtain ⟨s, t, rfl⟩ := h
  exact ⟨a ++ s, t, by simp⟩

theorem infix_ext_right {α : Type} {l m : List α} (h : l <:+: m)
    (b : List α) : l <:+: m ++ b := by
  obtain ⟨s, t, rfl⟩ := h
  exact ⟨s, t ++ b, by simp⟩

theorem infix_append_cons_cases {α : Type} {c : α} {l a b : List α}
    (hc : c ∉ l) (h : l <:+: a ++ c :: b) : l <:+: a ∨ l <:+: b := by
  induction a generalizing l with
  | nil =>
      rw [List.nil_append, List.infix_cons_iff] at h
      rcases h with h | h
      · cases l with
        | nil => exact Or.inl (List.nil_infix)
        | cons x l' =>
            rw [List.cons_prefix_cons] at h
            exact absurd (h.1 ▸ List.mem_cons_self x l') hc
      · exact Or.inr h
  | cons y a' ih =>
      rw [List.cons_append, List.infix_cons_iff] at h
      rcases h with h | h
      · exact Or.inl ( List.IsPrefix.isInfix
          (prefix_append_cons hc (List.cons_append y a' (c :: b) ▸ h)))
      · rcases ih hc h with h | h
        · exact Or.inl (infix_ext_left [y] h)
        · exact Or.inr h

/-- An occurrence of a `c`-free pattern cannot straddle a `c`. -/
theorem not_infix_append_cons {α : Type} {c : α} {l a b : List α}
    (hc : c ∉ l) (ha : ¬ l <:+: a) (hb : ¬ l <:+: b) :
    ¬ l <:+: a ++ c :: b :=
  fun h => (infix_append_cons_cases hc h).elim ha hb

theorem not_infix_replicate {l : List Nat} {c n : Nat} (x : Nat)
    (hx : x ∈ l) (hne : x ≠ c) : ¬ l <:+: List.replicate n c :=
  fun h => hne (List.eq_of_mem_replicate (h.sublist.subset hx))

/-- A nonempty `c`-free pattern is no infix of `c :: b` unless it is an
infix of `b`. -/
theorem not_infix_cons_of {α : Type} {c : α} {l b : List α}
    (hne : l ≠ []) (hc : c ∉ l) (hb : ¬ l <:+: b) : ¬ l <:+: c :: b := by
  intro h
  rcases List.infix_cons_iff.mp h with h | h
  · cases l with
    | nil => exact hne rfl
    | cons x l' =>
        rw [List.cons_prefix_cons] at h
        exact hc (h.1 ▸ List.mem_cons_self x l')
  · exact hb h

theorem str_nl1 : str "\n" = [10] := by decide

theorem str_nl2 : str "\n\n" = [10, 10] := by decide

theorem str_txt_mid : str "\n\nSummary:\n" = 10 :: 10 :: (str "Summary:" ++ [10]) := by
  decide

theorem str_txt_oc : str "Original Content:\n" = str "Original Content:" ++ [10] := by
  decide

theorem str_md_head : str "# " = [35, 32] := by decide

theorem str_md_sum : str "\n\n## Summary\n\n" = 10 :: 10 :: (str "## Summary" ++ [10, 10]) := by
  decide

theorem str_md_oc : str "## Original Content\n\n"
    = str "## Original Content" ++ [10, 10] := by decide

theorem kwSectionTxt_empty {o : Option (List (List Nat))}
    (h : o = none ∨ o = some []) : kwSectionTxt o = [] := by
  rcases h with rfl | rfl <;> simp [kwSectionTxt]

theorem kwSectionMd_empty {o : Option (List (List Nat))}
    (h : o = none ∨ o = some []) : kwSectionMd o = [] := by
  rcases h with rfl | rfl <;> simp [kwSectionMd]

theorem exportTxt_shape (n : Note) (h : kwSectionTxt n.keywords = []) :
    exportTxt n =
      n.title ++ 10 :: (List.replicate n.title.length 61 ++ 10 :: 10 ::
        (str "Summary:" ++ 10 :: (summaryOrDefault n.summary ++ 10 :: 10 ::
          (str "Original Content:" ++ 10 :: n.original_content)))) := by
  rw [exportTxt, h, str_nl1, str_txt_mid, str_nl2, str_txt_oc]
  simp [List.append_assoc]

theorem exportMd_shape (n : Note) (h : kwSectionMd n.keywords = []) :
    exportMd n =
      35 :: 32 :: (n.title ++ 10 :: 10 :: (str "## Summary" ++ 10 :: 10 ::
        (summaryOrDefault n.summary ++ 10 :: 10 ::
          (str "## Original Content" ++ 10 :: 10 :: n.original_content)))) := by
  rw [exportMd, h, str_md_head, str_md_sum, str_nl2, str_md_oc]
  simp [List.append_assoc]

theorem not_infix_summaryOrDefault {M : List Nat} (o : Option (List Nat))
    (hdef : ¬ M <:+: str "No summary")
    (hs : ∀ s, o = some s → ¬ M <:+: s) :
    ¬ M <:+: summaryOrDefault o := by
  cases o with
  | none => exact hdef
  | some s =>
      simp only [summaryOrDefault]
      split
      · exact hdef
      · exact hs s rfl

theorem md_marker_not_straddle {X : List Nat}
    (hX : ¬ str "## Keywords" <:+: X) :
    ¬ str "## Keywords" <:+: 35 :: 32 :: X := by
  have eM : str "## Keywords" = 35 :: 35 :: str " Keywords" := by decide
  intro h
  rcases List.infix_cons_iff.mp h with h | h
  · rw [eM, List.cons_prefix_cons, List.cons_prefix_cons] at h
    exact absurd h.2.1 (by decide)
  · rcases List.infix_cons_iff.mp h with h | h
    · rw [eM, List.cons_prefix_cons] at h
      exact absurd h.1 (by decide)
    · exact hX h

theorem exportTxt_kw_shape (n : Note) :
    exportTxt n = (n.title ++ str "\n" ++ List.replicate n.title.length 61
        ++ str "\n\nSummary:\n" ++ summaryOrDefault n.summary ++ str "\n\n")
      ++ (kwSectionTxt n.keywords
        ++ (str "Original Content:\n" ++ n.original_content)) := by
  simp [exportTxt, List.append_assoc]

theorem exportMd_kw_shape (n : Note) :
    exportMd n = (str "# " ++ n.title ++ str "\n\n## Summary\n\n"
        ++ summaryOrDefault n.summary ++ str "\n\n")
      ++ (kwSectionMd n.keywords
        ++ (str "## Original Content\n\n" ++ n.original_content)) := by
  simp [exportMd, List.append_assoc]

/-- C3: when the keyword list is null or empty, neither export contains
a Keywords section (no `Keywords:` line in plain text, no `## Keywords`
heading in Markdown), provided the note's own text fields do not
themselves contain those marker strings; when the keyword list is
non-empty the section is present in both exports. -/
theorem keywords_section_correct (n : Note)
    (h1 : ¬ str "Keywords:" <:+: n.title)
    (h2 : ∀ s, n.summary = some s → ¬ str "Keywords:" <:+: s)
    (h3 : ¬ str "Keywords:" <:+: n.original_content)
    (h4 : ¬ str "## Keywords" <:+: n.title)
    (h5 : ∀ s, n.summary = some s → ¬ str "## Keywords" <:+: s)
    (h6 : ¬ str "## Keywords" <:+: n.original_content) :
    ((n.keywords = none ∨ n.keywords = some []) →
        ¬ str "Keywords:" <:+: exportTxt n ∧ ¬ str "## Keywords" <:+: exportMd n)
    ∧ (∀ ks, n.keywords = some ks → ks ≠ [] →
        str "Keywords:" <:+: exportTxt n ∧ str "## Keywords" <:+: exportMd n) := by
  constructor
  · intro hk
    constructor
    · rw [exportTxt_shape n (kwSectionTxt_empty hk)]
      have hc : (10 : Nat) ∉ str "Keywords:" := by decide
      have hne : str "Keywords:" ≠ [] := by decide
      refine not_infix_append_cons hc h1
        (not_infix_append_cons hc ?_
          (not_infix_cons_of hne hc
            (not_infix_append_cons hc ?_
              (not_infix_append_cons hc ?_
                (not_infix_cons_of hne hc
                  (not_infix_append_cons hc ?_ h3))))))
      · exact not_infix_replicate 75 (by decide) (by decide)
      · decide
      · exact not_infix_summaryOrDefault n.summary (by decide) h2
      · decide
    · rw [exportMd_shape n (kwSectionMd_empty hk)]
      have hc : (10 : Nat) ∉ str "## Keywords" := by decide
      have hne : str "## Keywords" ≠ [] := by decide
      refine md_marker_not_straddle ?_
      refine not_infix_append_cons hc h4
        (not_infix_cons_of hne hc
          (not_infix_append_cons hc ?_
            (not_infix_cons_of hne hc
              (not_infix_append_cons hc ?_
                (not_infix_cons_of hne hc
                  (not_infix_append_cons hc ?_
                    (not_infix_cons_of hne hc h6)))))))
      · decide
      · exact not_infix_summaryOrDefault n.summary (by decide) h5
      · decide
  · intro ks hk hne
    have hpos : 0 < ks.length := List.length_pos.mpr hne
    constructor
    · rw [exportTxt_kw_shape]
      refine infix_ext_left _ (infix_ext_right ?_ _)
      rw [hk]
      simp only [kwSectionTxt, if_pos hpos]
      exact List.IsPrefix.isInfix
        (((by decide : str "Keywords:" <+: str "Keywords: ").trans
          (List.prefix_append _ _)).trans (List.prefix_append _ _))
    · rw [exportMd_kw_shape]
      refine infix_ext_left _ (infix_ext_right ?_ _)
      rw [hk]
      simp only [kwSectionMd, if_pos hpos]
      exact List.IsPrefix.isInfix
        (((by decide : str "## Keywords" <+: str "## Keywords\n\n").trans
          (List.prefix_append _ _)).trans (List.prefix_append _ _))

theorem exportTxt_body_shape (n : Note) :
    exportTxt n = (n.title ++ str "\n" ++ List.replicate n.title.length 61
        ++ str "\n\nSummary:\n")
      ++ (summaryOrDefault n.summary
        ++ (str "\n\n" ++ kwSectionTxt n.keywords
            ++ str "Original Content:\n" ++ n.original_content)) := by
  simp [exportTxt, List.append_assoc]

theorem exportMd_body_shape (n : Note) :
    exportMd n = (str "# " ++ n.title ++ str "\n\n## Summary\n\n")
      ++ (summaryOrDefault n.summary
        ++ (str "\n\n" ++ kwSectionMd n.keywords
            ++ str "## Original Content\n\n" ++ n.original_content)) := by
  simp [exportMd, List.append_assoc]

theorem no_summary_infix (n : Note)
    (h : summaryOrDefault n.summary = str "No summary") :
    str "No summary" <:+: exportTxt n ∧ str "No summary" <:+: exportMd n := by
  constructor
  · rw [exportTxt_body_shape, h]
    exact infix_ext_left _ (infix_ext_right (List.infix_refl _) _)
  · rw [exportMd_body_shape, h]
    exact infix_ext_left _ (infix_ext_right (List.infix_refl _) _)

/-- C4: both export formatters are total functions of the note record
(they are definable as plain total functions on `Note`, covering a null
summary and a null or empty keyword list), and for a null summary both
substitute the literal `No summary` for the summary body. -/
theorem exporters_total_no_summary (n : Note) (h : n.summary = none) :
    str "No summary" <:+: exportTxt n ∧ str "No summary" <:+: exportMd n :=
  no_summary_infix n (by rw [h]; rfl)

/-- C9: an empty-string summary is exported exactly like an absent one:
both exporters emit the literal `No summary`, and the output is
identical to that of the same note with a null summary. -/
theorem empty_summary_like_missing (n : Note) (h : n.summary = some []) :
    exportTxt n = exportTxt { n with summary := none }
    ∧ exportMd n = exportMd { n with summary := none }
    ∧ str "No summary" <:+: exportTxt n
    ∧ str "No summary" <:+: exportMd n := by
  have e : summaryOrDefault n.summary = str "No summary" := by
    rw [h]; rfl
  refine ⟨?_, ?_, no_summary_infix n e⟩
  · unfold exportTxt
    rw [e]
    rfl
  · unfold exportMd
    rw [e]
    rfl

/-- The note-detail fetch in the detail page:
`supabase.from('notes').select('*').eq('id', id).eq('user_id', user.id).single()`.
`.single()` succeeds exactly when one row matches; on error the page
redirects to the list view, modelled as `none`. -/
def fetchNote (db : List Note) (sessionUid noteId : Nat) : Option Note :=
  match db.filter (fun r => r.id == noteId && r.user_id == sessionUid) with
  | [r] => some r
  | _ => none

/-- C6: a note owned by identity `a` is never returned by a get-by-id
performed under a different identity `b`, even with the correct id: the
query is scoped by both record id and session user id, so the fetch
yields the not-found outcome (`none`, the redirect to the list view).
Record ids are unique (primary key). -/
theorem cross_identity_fetch_not_found (db : List Note) (row : Note) (a b : Nat)
    (_hmem : row ∈ db) (hown : row.user_id = a) (hne : b ≠ a)
    (huniq : ∀ r ∈ db, r.id = row.id → r = row) :
    fetchNote db b row.id = none := by
  have hfil : db.filter (fun r => r.id == row.id && r.user_id == b) = [] := by
    rw [List.filter_eq_nil_iff]
    intro r hr hcond
    simp only [Bool.and_eq_true, beq_iff_eq] at hcond
    have : r = row := huniq r hr hcond.1
    rw [this] at hcond
    exact hne (hcond.2 ▸ hown ▸ rfl)
  rw [fetchNote, hfil]

/-- Summary length option of the creation page. -/
inductive SummLength where
  | short
  | medium
  | long
deriving DecidableEq

/-- Summary tone option of the creation page. -/
inductive SummTone where
  | academic
  | casual
  | professional
deriving DecidableEq

/-- The body of a summarize response as the client reads it
(`data.title`, `data.summary`, `data.keywords`); each field may be
absent in a malformed response, hence `Option`. -/
structure SummData where
  title : Option (List Nat)
  summary : Option (List Nat)
  keywords : Option (List (List Nat))
deriving DecidableEq

/-- The component state of `NewNote.tsx` that `handleSummarize`
reads and writes. -/
structure NewNoteState where
  content : List Nat
  summaryLength : SummLength
  summaryTone : SummTone
  isBulletPoints : Bool
  isProcessing : Bool
  result : Option SummData
deriving DecidableEq

/-- What `supabase.functions.invoke('summarize', ...)` resolves to:
either a non-null `error` (transport failure or remote function
error), or a `data` value that may be `null` or a body with possibly
missing fields. -/
inductive InvokeResult where
  | failure (msg : List Nat)
  | success (data : Option SummData)
deriving DecidableEq

/-- The toast variant shown when the handler finishes. -/
inductive ToastKind where
  | success
  | destructive
deriving DecidableEq

/-- The observable outcome of one `handleSummarize` run: the final
component state, how many times the summarize function was invoked,
and the toast surfaced to the user. -/
structure Outcome where
  state : NewNoteState
  invocations : Nat
  toast : ToastKind
deriving DecidableEq

/-- JavaScript whitespace as stripped by `String.prototype.trim`
(ASCII range). -/
def isWs (c : Nat) : Bool :=
  c == 32 || c == 9 || c == 10 || c == 13 || c == 11 || c == 12

/-- `content.trim()`. -/
def trimStr (s : List Nat) : List Nat :=
  ((s.dropWhile isWs).reverse.dropWhile isWs).reverse

/-- `handleSummarize` of `NewNote.tsx`, given the resolution of the
one network call it may make.  Blank content short-circuits with a
destructive toast and no invocation.  Otherwise the handler sets
`result` to null, invokes the function once, and either stores the
response fields unvalidated (success toast) or lands in the catch
block (destructive toast).  A null `data` body lands in the catch
block too, because `data.title` throws on null. -/
def handleSummarize (s : NewNoteState) (resp : InvokeResult) : Outcome :=
  if trimStr s.content = [] then
    { state := s, invocations := 0, toast := .destructive }
  else
    match resp with
    | .failure _ =>
        { state := { s with isProcessing := false, result := none },
          invocations := 1, toast := .destructive }
    | .success none =>
        { state := { s with isProcessing := false, result := none },
          invocations := 1, toast := .destructive }
    | .success (some d) =>
        { state := { s with isProcessing := false, result := some d },
          invocations := 1, toast := .success }

/-- C7: blank (empty or all-whitespace) draft content makes the
generate-summary action return before any network call: the summarize
function is not invoked, an inline destructive toast is surfaced, and
the page state — draft content, options and result — is unchanged. -/
theorem blank_content_no_network (s : NewNoteState) (resp : InvokeResult)
    (h : ∀ c ∈ s.content, isWs c = true) :
    handleSummarize s resp
      = { state := s, invocations := 0, toast := .destructive } := by
  have ht : trimStr s.content = [] := by
    unfold trimStr
    rw [List.dropWhile_eq_nil_iff.mpr h]
    rfl
  unfold handleSummarize
  rw [if_pos ht]

/-- C10: generating a summary discards any previously generated result
before the request: after a failed regeneration (error or null body)
the result state is `none`, even though a result existed before. -/
theorem failed_regeneration_loses_result (s : NewNoteState) (r0 : SummData)
    (m : List Nat) (_hres : s.result = some r0)
    (hc : trimStr s.content ≠ []) :
    (handleSummarize s (.failure m)).state.result = none
    ∧ (handleSummarize s (.success none)).state.result = none := by
  unfold handleSummarize
  rw [if_neg hc]
  exact ⟨rfl, rfl⟩

/-- A response body with every expected field missing: `{}`. -/
def emptyBody : SummData := { title := none, summary := none, keywords := none }

/-- A state holding a non-blank draft. -/
def c8State : NewNoteState :=
  { content := str "abc", summaryLength := .medium, summaryTone := .professional,
    isBulletPoints := false, isProcessing := false, result := none }

/-- C8 counterexample: a malformed response — a non-null body missing
all expected fields — is not surfaced as an error: the handler takes
the success path, shows the success toast and stores the field-less
result. -/
theorem malformed_response_treated_as_success :
    (handleSummarize c8State (.success (some emptyBody))).toast = ToastKind.success
    ∧ (handleSummarize c8State (.success (some emptyBody))).state.result
        = some emptyBody := by
  constructor <;> rfl

/-- C8 (amended): transport failures, remote function errors and null
response bodies are surfaced as a recoverable (destructive) toast with
the result cleared; a non-null body with missing fields is treated as
success instead.  In every case the function is invoked at most once
(no automatic retry) and the draft content and the selected length,
tone and bullet-point options are left unchanged. -/
theorem failure_surfaced_draft_preserved (s : NewNoteState) (resp : InvokeResult)
    (hc : trimStr s.content ≠ []) :
    ((∀ m, resp = .failure m →
        (handleSummarize s resp).toast = .destructive
        ∧ (handleSummarize s resp).state.result = none)
      ∧ (resp = .success none →
        (handleSummarize s resp).toast = .destructive
        ∧ (handleSummarize s resp).state.result = none))
    ∧ (handleSummarize s resp).state.content = s.content
    ∧ (handleSummarize s resp).state.summaryLength = s.summaryLength
    ∧ (handleSummarize s resp).state.summaryTone = s.summaryTone
    ∧ (handleSummarize s resp).state.isBulletPoints = s.isBulletPoints
    ∧ (handleSummarize s resp).invocations ≤ 1 := by
  unfold handleSummarize
  rw [if_neg hc]
  rcases resp with m | d
  · exact ⟨⟨fun m h => ⟨rfl, rfl⟩, fun h => by cases h⟩, rfl, rfl, rfl, rfl,
      Nat.le_refl 1⟩
  · cases d with
    | none =>
        refine ⟨⟨fun m h => ?_, fun h => ⟨rfl, rfl⟩⟩, rfl, rfl, rfl, rfl,
          Nat.le_refl 1⟩
        simp at h
    | some d =>
        refine ⟨⟨fun m h => ?_, fun h => ?_⟩, rfl, rfl, rfl, rfl,
          Nat.le_refl 1⟩
        · simp at h
        · simp at h

/-- A concrete note with no keywords, used to instantiate C3. -/
def c3Note : Note :=
  { id := 1, user_id := 1, title := str "Alpha", summary := none,
    original_content := str "Body", keywords := none }

/-- Witness for C3: the hypotheses hold at `c3Note` and its exports
contain no Keywords section. -/
theorem keywords_section_correct_witness :
    (¬ str "Keywords:" <:+: c3Note.title)
    ∧ (¬ str "Keywords:" <:+: exportTxt c3Note
       ∧ ¬ str "## Keywords" <:+: exportMd c3Note) :=
  ⟨by decide,
   (keywords_section_correct c3Note (by decide) (fun s hs => nomatch hs)
      (by decide) (by decide) (fun s hs => nomatch hs) (by decide)).1
     (Or.inl rfl)⟩

/-- A concrete note with a null summary, used to instantiate C4. -/
def c4Note : Note :=
  { id := 2, user_id := 1, title := str "T", summary := none,
    original_content := str "C", keywords := some [] }

/-- Witness for C4 at `c4Note`. -/
theorem exporters_total_no_summary_witness :
    c4Note.summary = none
    ∧ (str "No summary" <:+: exportTxt c4Note
       ∧ str "No summary" <:+: exportMd c4Note) :=
  ⟨rfl, exporters_total_no_summary c4Note rfl⟩

/-- A concrete note with an empty-string summary, used to
instantiate C9. -/
def c9Note : Note :=
  { id := 3, user_id := 1, title := str "T", summary := some [],
    original_content := str "C", keywords := none }

/-- Witness for C9 at `c9Note`. -/
theorem empty_summary_like_missing_witness :
    c9Note.summary = some []
    ∧ (exportTxt c9Note = exportTxt { c9Note with summary := none }
       ∧ exportMd c9Note = exportMd { c9Note with summary := none }
       ∧ str "No summary" <:+: exportTxt c9Note
       ∧ str "No summary" <:+: exportMd c9Note) :=
  ⟨rfl, empty_summary_like_missing c9Note rfl⟩

/-- A concrete note owned by identity 1, used to instantiate C6. -/
def noteA : Note :=
  { id := 7, user_id := 1, title := str "A", summary := none,
    original_content := str "x", keywords := none }

/-- Witness for C6: identity 2 cannot fetch identity 1's note by its
valid id. -/
theorem cross_identity_fetch_not_found_witness :
    noteA ∈ [noteA] ∧ noteA.user_id = 1 ∧ (2 : Nat) ≠ 1
    ∧ fetchNote [noteA] 2 noteA.id = none :=
  ⟨List.mem_singleton.mpr rfl, rfl, by decide,
   cross_identity_fetch_not_found [noteA] noteA 1 2 (List.mem_singleton.mpr rfl)
     rfl (by decide) (fun r hr _ => List.mem_singleton.mp hr)⟩

/-- A state whose draft content is whitespace only, used to
instantiate C7. -/
def c7State : NewNoteState :=
  { content := str "  ", summaryLength := .medium, summaryTone := .professional,
    isBulletPoints := false, isProcessing := false, result := none }

/-- Witness for C7 at `c7State`. -/
theorem blank_content_no_network_witness :
    (∀ c ∈ c7State.content, isWs c = true)
    ∧ handleSummarize c7State (.failure [])
        = { state := c7State, invocations := 0, toast := .destructive } :=
  ⟨by decide, blank_content_no_network c7State (.failure []) (by decide)⟩

/-- A previously generated result, used to instantiate C10. -/
def c10Result : SummData :=
  { title := some (str "T"), summary := some (str "S"), keywords := some [] }

/-- A state holding a non-blank draft and an existing result, used to
instantiate C10. -/
def c10State : NewNoteState :=
  { content := str "abc", summaryLength := .short, summaryTone := .casual,
    isBulletPoints := true, isProcessing := false, result := some c10Result }

/-- Witness for C10 at `c10State`. -/
theorem failed_regeneration_loses_result_witness :
    c10State.result = some c10Result
    ∧ trimStr c10State.content ≠ []
    ∧ ((handleSummarize c10State (.failure [])).state.result = none
       ∧ (handleSummarize c10State (.success none)).state.result = none) :=
  ⟨rfl, by decide,
   failed_regeneration_loses_result c10State c10Result [] rfl (by decide)⟩

/-- Witness for the amended C8 at `c8State` with a failing response. -/
theorem failure_surfaced_draft_preserved_witness :
    trimStr c8State.content ≠ []
    ∧ (handleSummarize c8State (.failure (str "err"))).toast = ToastKind.destructive
    ∧ (handleSummarize c8State (.failure (str "err"))).state.content = c8State.content
    ∧ (handleSummarize c8State (.failure (str "err"))).invocations ≤ 1 :=
  ⟨by decide,
   ((failure_surfaced_draft_preserved c8State (.failure (str "err"))
       (by decide)).1.1 (str "err") rfl).1,
   (failure_surfaced_draft_preserved c8State (.failure (str "err"))
       (by decide)).2.1,
   (failure_surfaced_draft_preserved c8State (.failure (str "err"))
       (by decide)).2.2.2.2.2⟩

end SmartNotes
